import Mathlib

/-!
Shallow embedding of the classification and date-normalization core of
`arbitr.py` (class `GoogleScraper`): the industry taxonomy matcher, the
country extractor with mention counts, the attribution classifier, and the
date parsing fallback chain.  Python strings are modelled as Lean `String`
(text is ASCII in all relevant code paths); `None`-able results are
`Option`; the Python `dict` used for mention counts is an association list
with Python's update-in-place / append-new-key semantics.
-/

namespace Arbitr

/-! ## String utilities mirroring Python primitives -/

/-- Python `str.lower()` (ASCII). -/
def pyLower (s : String) : String := String.mk (s.data.map Char.toLower)

/-- Characters counted as whitespace by Python `str.strip()` on the inputs
at hand (ASCII whitespace). -/
def pySpace (c : Char) : Bool := c = ' ' || c = '\t' || c = '\n' || c = '\r'

/-- Python `str.strip()`. -/
def pyStrip (s : String) : String :=
  String.mk (((s.data.dropWhile pySpace).reverse.dropWhile pySpace).reverse)

/-- Helper for `pyTitle`: capitalize a letter that follows a non-letter,
lowercase a letter that follows a letter. -/
def pyTitleAux : Bool → List Char → List Char
  | _, [] => []
  | prevAlpha, c :: rest =>
    if c.isAlpha then
      (if prevAlpha then c.toLower else c.toUpper) :: pyTitleAux true rest
    else
      c :: pyTitleAux false rest

/-- Python `str.title()` (ASCII). -/
def pyTitle (s : String) : String := String.mk (pyTitleAux false s.data)

/-- Sublist containment on character lists: Python's `needle in hay`. -/
def containsSub (needle : List Char) : List Char → Bool
  | [] => needle.isEmpty
  | c :: rest => needle.isPrefixOf (c :: rest) || containsSub needle rest

/-- Python's substring operator `needle in hay` on strings. -/
def pyIn (needle hay : String) : Bool := containsSub needle.data hay.data

/-- Python `str.zfill` (for the nonnegative digit strings used here). -/
def zfill (n : Nat) (s : String) : String :=
  if n ≤ s.length then s
  else String.mk (List.replicate (n - s.length) '0') ++ s

/-- Python `int()` on a string of decimal digits. -/
def str2nat (s : String) : Nat :=
  s.data.foldl (fun a c => a * 10 + (c.toNat - Char.toNat '0')) 0

/-- Regex `\w` on ASCII: letters, digits and underscore. -/
def wordChar (c : Char) : Bool := c.isAlphanum || c = '_'

/-- Whether the literal token `tok` matches at the head of `s` bounded by
word edges: `tok` is nonempty, is a prefix of `s`, the previous character
(recorded in `prevW`) is not a word character, and the character after the
match, if any, is not a word character.  This is `\b tok \b` for a token
that starts and ends with word characters, true of every country token. -/
def matchCond (tok : List Char) (prevW : Bool) (s : List Char) : Bool :=
  !tok.isEmpty && tok.isPrefixOf s && !prevW &&
    (match (s.drop tok.length).head? with
     | none => true
     | some d => !wordChar d)

/-- One pass of `re.findall(r'\b' ++ tok ++ r'\b', text)`: count
non-overlapping occurrences left to right.  `skip` is the number of
characters of a just-matched occurrence still to be consumed (matches may
not overlap), `prevW` whether the previous character is a word
character. -/
def countOccAux (tok : List Char) : Nat → Bool → List Char → Nat
  | _, _, [] => 0
  | Nat.succ k, _, c :: rest => countOccAux tok k (wordChar c) rest
  | 0, prevW, c :: rest =>
    if matchCond tok prevW (c :: rest) then
      1 + countOccAux tok (tok.length - 1) (wordChar c) rest
    else
      countOccAux tok 0 (wordChar c) rest

/-- Count of non-overlapping word-boundary occurrences of `tok` in `text`
(the `re.findall` call of `_extract_countries_with_counts`). -/
def count_occurrences (tok : String) (text : String) : Nat :=
  countOccAux tok.data 0 false text.data

/-! ## Static tables (`GoogleScraper` class constants) -/

/-- `GoogleScraper.INDUSTRY_KEYWORDS`, in dict-literal order. -/
def INDUSTRY_KEYWORDS : List (String × List String) :=
  [ ("energy",
     [ "power grid", "electricity transmission", "high voltage substation", "transformer",
       "switchgear", "grid operator", "power plant", "gas-fired plant", "substation",
       "nuclear plant", "hydropower dam", "wind farm", "solar farm", "transformer",
       "gas pipeline", "compressor station", "LNG terminal", "oil refinery",
       "fuel depot", "storage tank", "pumping station", "heating",
       "blackout", "grid failure", "SCADA", "ICS", "power outage" ]),
    ("transportation",
     [ "railway", "rail line", "freight train",
       "rail yard", "marshalling yard",
       "rail signalling", "signal box",
       "switch points", "interlocking",
       "derailment", "derailed", "track",
       "bridge", "tunnel", "pier", "terminal",
       "port", "container terminal",
       "logistics hub", "distribution hub",
       "fuel pipeline", "airport",
       "runway", "air traffic control",
       "depot", "track section" ]),
    ("telecommunications",
     [ "telecom exchange", "telephone exchange",
       "mobile network", "cell tower",
       "base station", "core network",
       "network operations centre", "data centre",
       "fiber-optic cable", "fibre-optic cable",
       "undersea cable", "subsea cable", "submarine cable",
       "cable landing station", "backbone network",
       "microwave link", "satellite link",
       "routing outage", "BGP hijack",
       "cable cut", "network disruption", "anchor" ]),
    ("finance",
     [ "bank", "central bank", "payment system",
       "SWIFT", "SEPA", "clearing house",
       "ATM network", "cash-in-transit",
       "bank branch", "vault",
       "financial regulator", "sanctions enforcement",
       "sanctions evasion", "money laundering",
       "financial cyberattack", "extortion", "ransomware",
       "ransom payment", "crypto exchange", "illicit finance" ]),
    ("healthcare",
     [ "hospital", "medical centre", "emergency department",
       "ambulance service", "medical supply depot",
       "pharmaceutical plant", "vaccine facility",
       "laboratory", "pathology lab", "biomedical facility",
       "oxygen supply", "medical gas", "power outage hospital",
       "backup generator failure", "hospital ransomware",
       "health data breach", "medical logistics",
       "cold chain disruption", "water contamination",
       "fire evacuation", "security incident" ]),
    ("defense",
     [ "military base", "airbase", "naval base", "barracks",
       "munitions depot", "ammo depot", "weapons storage",
       "fuel depot", "jet fuel", "military logistics",
       "weapons shipment", "military convoy", "rail transport military",
       "radar site", "air defence", "missile system",
       "drone", "UAV", "military aircraft", "arms factory",
       "restricted area", "secure facility", "perimeter breach",
       "explosive device", "military attack" ]),
    ("cybersecurity",
     [ "cyber sabotage", "malware", "ransomware", "DDoS",
       "network intrusion", "unauthorized access",
       "OT compromise", "ICS compromise", "SCADA breach", "industrial control system",
       "PLC manipulation", "remote access trojan", "command and control",
       "APT", "state-sponsored", "cyber espionage", "cyber disruption",
       "satellite communications attack", "router compromise",
       "telecom network intrusion", "cyberattack", "cyber attack",
       "system outage" ]),
    ("manufacturing",
     [ "factory", "production facility", "industrial site",
       "petrochemical", "plant", "production halt" ]),
    ("government",
     [ "government building", "ministry", "office", "recruitment office", "recruitment centre",
       "state agency", "regulatory authority", "municipal building",
       "city hall", "prefecture", "embassy", "consulate",
       "border police", "border guard", "customs service",
       "civil protection", "emergency management", "critical infrastructure authority",
       "classified facility", "secure compound" ]) ]

/-- `GoogleScraper.COUNTRY_KEYWORDS` (a Python set literal; listed here in
source order — the claims proved below do not depend on iteration order). -/
def COUNTRY_KEYWORDS : List String :=
  [ "ukraine", "poland", "germany", "france", "uk", "united kingdom", "great britain",
    "england", "britain",
    "estonia", "latvia", "lithuania", "czech", "czechia", "czech republic", "slovakia",
    "romania", "bulgaria",
    "finland", "sweden", "norway", "denmark", "netherlands", "belgium", "spain",
    "luxembourg", "hungary",
    "italy", "greece", "portugal", "moldova", "austria", "switzerland" ]

/-- `GoogleScraper.SECURITY_SERVICES['direct']`. -/
def SECURITY_SERVICES_direct : List String :=
  [ "gru", "svr", "fsb", "russian intelligence" ]

/-- `GoogleScraper.SECURITY_SERVICES['proxy']`. -/
def SECURITY_SERVICES_proxy : List String :=
  [ "hacker group", "cybercriminal", "activist", "drug", "criminal group", "criminals",
    "separatist", "militia", "drug dealer", "drug lord", "gang", "gangs", "recruit", "traitor",
    "criminal", "felon", "extremist", "extremists", "extremist group", "extremist groups",
    "ultranationalist", "ultranationalists", "ultranationalist group", "ultranationalist groups" ]

/-- The `mapping` dict of `_normalize_country_name`, in dict-literal key
order (the duplicate `'britain'` entry of the literal collapses to its
first position, as in Python). -/
def country_mapping : List (String × String) :=
  [ ("uk", "United Kingdom"),
    ("britain", "United Kingdom"),
    ("gb", "United Kingdom"),
    ("great britain", "United Kingdom"),
    ("england", "United Kingdom"),
    ("ukraine", "Ukraine"),
    ("poland", "Poland"),
    ("germany", "Germany"),
    ("france", "France"),
    ("estonia", "Estonia"),
    ("latvia", "Latvia"),
    ("lithuania", "Lithuania"),
    ("czech", "Czech Republic"),
    ("czechia", "Czech Republic"),
    ("czech republic", "Czech Republic"),
    ("slovakia", "Slovakia"),
    ("romania", "Romania"),
    ("bulgaria", "Bulgaria"),
    ("finland", "Finland"),
    ("sweden", "Sweden"),
    ("norway", "Norway"),
    ("denmark", "Denmark"),
    ("netherlands", "Netherlands"),
    ("belgium", "Belgium"),
    ("spain", "Spain"),
    ("italy", "Italy"),
    ("greece", "Greece"),
    ("portugal", "Portugal"),
    ("moldova", "Moldova"),
    ("luxembourg", "Luxembourg"),
    ("hungary", "Hungary") ]

/-! ## Classifiers -/

/-- `_extract_industries`: for each industry in table order, include its
label once if any of its keywords occurs (lowercased, plain substring) in
the text; the caller passes text already lowercased. -/
def extract_industries (text : String) : List String :=
  INDUSTRY_KEYWORDS.foldl
    (fun acc p =>
      if p.2.any (fun kw => pyIn (pyLower kw) text) then acc ++ [p.1] else acc)
    []

/-- `_normalize_country_name`: walk the mapping in order and return the
first value whose key equals the lowered name or is a substring of it;
otherwise Python `str.title()` of the raw name. -/
def normalize_country_name (country : String) : String :=
  let cl := pyLower country
  match country_mapping.find? (fun kv => kv.1 = cl || pyIn kv.1 cl) with
  | some kv => kv.2
  | none => pyTitle country

/-- Whether some mapping key equals or is a substring of the (lowered)
token, i.e. whether `_normalize_country_name` resolves through the table
rather than the title-case fallback. -/
def resolves_via_table (country : String) : Bool :=
  country_mapping.any (fun kv => kv.1 = pyLower country || pyIn kv.1 (pyLower country))

/-- Insert a string into a list ordered by decreasing length. -/
def insertByLen (x : String) : List String → List String
  | [] => [x]
  | y :: ys => if y.length < x.length then x :: y :: ys else y :: insertByLen x ys

/-- `sorted(self.COUNTRY_KEYWORDS, key=len, reverse=True)`: registry tokens
by descending length. -/
def sorted_countries : List String := COUNTRY_KEYWORDS.foldr insertByLen []

/-- Python dict lookup with default, on an association list. -/
def dictGetD : List (String × Nat) → String → Nat → Nat
  | [], _, dflt => dflt
  | kv :: rest, k, dflt => if kv.1 = k then kv.2 else dictGetD rest k dflt

/-- Python dict assignment on an association list: update the existing key
in place, else append the new key. -/
def dictSet : List (String × Nat) → String → Nat → List (String × Nat)
  | [], k, v => [(k, v)]
  | kv :: rest, k, v => if kv.1 = k then (k, v) :: rest else kv :: dictSet rest k v

/-- One iteration of the country loop in `_extract_countries_with_counts`:
on a nonzero word-boundary match count, accumulate the count under the
normalized name and append the normalized name to the found list if new. -/
def countryStep (tl : String) (acc : List String × List (String × Nat))
    (country : String) : List String × List (String × Nat) :=
  if 0 < count_occurrences (pyLower country) tl then
    (if normalize_country_name country ∈ acc.1 then acc.1
     else acc.1 ++ [normalize_country_name country],
     dictSet acc.2 (normalize_country_name country)
       (dictGetD acc.2 (normalize_country_name country) 0 +
        count_occurrences (pyLower country) tl))
  else acc

/-- `_extract_countries_with_counts`: word-boundary match every registry
token (longest first), normalize, and accumulate counts. -/
def extract_countries_with_counts (text : String) :
    List String × List (String × Nat) :=
  sorted_countries.foldl (countryStep (pyLower text)) ([], [])

/-- `direct_score` in `_determine_attack_method`. -/
def direct_score (text : String) : Nat :=
  SECURITY_SERVICES_direct.countP (fun kw => pyIn kw (pyLower text))

/-- `proxy_score` in `_determine_attack_method`. -/
def proxy_score (text : String) : Nat :=
  SECURITY_SERVICES_proxy.countP (fun kw => pyIn kw (pyLower text))

/-- `_determine_attack_method`. -/
def determine_attack_method (text : String) : String :=
  if proxy_score text < direct_score text then "direct"
  else if direct_score text < proxy_score text then "proxy"
  else "unknown"

/-- Python's `in` operator with its `None`-operand behavior: testing
`kw in None` raises a `TypeError`. -/
def py_in_checked (needle : String) (hay : Option String) : Except String Bool :=
  match hay with
  | none => Except.error "TypeError"
  | some h => Except.ok (pyIn needle h)

/-- `_extract_industries` run under Python semantics on a possibly-`None`
text: the first keyword containment test on a `None` text raises. -/
def extract_industries_py (text : Option String) : Except String (List String) :=
  INDUSTRY_KEYWORDS.foldlM
    (fun acc p => do
      let b ← p.2.anyM (fun kw => py_in_checked (pyLower kw) text)
      pure (if b then acc ++ [p.1] else acc))
    []

/-! ## Calendar arithmetic (`datetime` essentials) -/

/-- Gregorian leap year. -/
def is_leap (y : Nat) : Bool := y % 4 = 0 && (y % 100 ≠ 0 || y % 400 = 0)

/-- Days in a month of a given year. -/
def days_in_month (y m : Nat) : Nat :=
  if m = 2 then (if is_leap y then 29 else 28)
  else if m = 4 || m = 6 || m = 9 || m = 11 then 30
  else 31

/-- Day count of a proleptic Gregorian date (epoch 0000-03-01), valid for
years from 1 on; used to model `datetime` subtraction. -/
def ratadays (y m d : Nat) : Nat :=
  let y' := if m ≤ 2 then y - 1 else y
  let era := y' / 400
  let yoe := y' % 400
  let mp := (m + 9) % 12
  let doy := (153 * mp + 2) / 5 + d - 1
  era * 146097 + yoe * 365 + yoe / 4 - yoe / 100 + doy

/-- Inverse of `ratadays`. -/
def civil_from_days (z : Nat) : Nat × Nat × Nat :=
  let era := z / 146097
  let doe := z % 146097
  let yoe := (doe - doe / 1460 + doe / 36524 - doe / 146096) / 365
  let y0 := yoe + era * 400
  let doy := doe - (365 * yoe + yoe / 4 - yoe / 100)
  let mp := (5 * doy + 2) / 153
  let d := doy - (153 * mp + 2) / 5 + 1
  let m := if mp < 10 then mp + 3 else mp - 9
  (if m ≤ 2 then y0 + 1 else y0, m, d)

/-- `datetime.strftime('%Y-%m-%d')`. -/
def strftime_ymd (date : Nat × Nat × Nat) : String :=
  zfill 4 (toString date.1) ++ "-" ++ zfill 2 (toString date.2.1) ++ "-" ++
    zfill 2 (toString date.2.2)

/-- `now - timedelta(days=n)`: `None` models the `OverflowError` raised when
the result falls before `datetime.min` (year 1), which the callers absorb
with `except: pass`. -/
def timedelta_sub (now : Nat × Nat × Nat) (n : Nat) : Option (Nat × Nat × Nat) :=
  let r := ratadays now.1 now.2.1 now.2.2
  if r < n + ratadays 1 1 1 then none
  else some (civil_from_days (r - n))

/-- Split a character list on a separator character (Python `str.split`
with an explicit separator). -/
def splitChar (sep : Char) : List Char → List (List Char)
  | [] => [[]]
  | c :: rest =>
    if c = sep then [] :: splitChar sep rest
    else
      match splitChar sep rest with
      | h :: t => (c :: h) :: t
      | [] => [[c]]

/-- Parse a `YYYY-MM-DD`-shaped string as `strptime('%Y-%m-%d')` does:
three dash-separated all-digit fields (year up to 4 digits, month and day
up to 2), forming a real calendar date. -/
def parse_ymd (s : String) : Option (Nat × Nat × Nat) :=
  match (splitChar '-' s.data).map String.mk with
  | [ys, ms, ds] =>
    if ys.data ≠ [] && ys.data.all Char.isDigit && ys.length ≤ 4 &&
       ms.data ≠ [] && ms.data.all Char.isDigit && ms.length ≤ 2 &&
       ds.data ≠ [] && ds.data.all Char.isDigit && ds.length ≤ 2 then
      let y := str2nat ys
      let m := str2nat ms
      let d := str2nat ds
      if 1 ≤ m && m ≤ 12 && 1 ≤ d && d ≤ days_in_month y m then
        some (y, m, d)
      else none
    else none
  | _ => none

/-- `_validate_date`: the string parses as a real calendar date and the
year lies inside `[2000, 2030]`. -/
def validate_date (s : String) : Bool :=
  match parse_ymd s with
  | none => false
  | some (y, _, _) => !(decide (y < 2000) || decide (2030 < y))

/-! ## A small matcher for the source's fixed regular expressions

The date patterns of `_parse_date` and `_parse_google_date` are built from
character-class repeats and literals only, so they are embedded as token
lists run by a backtracking matcher with Python's leftmost-then-greedy
semantics. -/

/-- Tokens of the source's date regexes. -/
inductive RTok where
  | wplus : RTok
  | dplus : RTok
  | drange : Nat → Nat → RTok
  | splus : RTok
  | litc : Char → RTok
  | optc : Char → RTok
  | oneOf : List Char → RTok
  | lits : List Char → RTok

/-- Splits of a list into a prefix of each length from `hi` down to `lo`
(greedy order), provided the first `hi` characters satisfy the class. -/
def greedySplits (p : Char → Bool) (lo hi : Nat) (s : List Char) :
    List (List Char × List Char) :=
  let run := s.takeWhile p
  let top := min hi run.length
  if top < lo then []
  else (List.range (top + 1 - lo)).map (fun i => (s.take (top - i), s.drop (top - i)))

/-- All ways one token can consume a prefix of `s`, most-preferred first. -/
def tokAlts : RTok → List Char → List (List Char × List Char)
  | RTok.wplus, s => greedySplits wordChar 1 s.length s
  | RTok.dplus, s => greedySplits Char.isDigit 1 s.length s
  | RTok.drange lo hi, s => greedySplits Char.isDigit lo hi s
  | RTok.splus, s => greedySplits pySpace 1 s.length s
  | RTok.litc c, s =>
    match s with
    | c' :: rest => if c' = c then [([c], rest)] else []
    | [] => []
  | RTok.optc c, s =>
    match s with
    | c' :: rest => if c' = c then [([c], rest), ([], c' :: rest)] else [([], s)]
    | [] => [([], [])]
  | RTok.oneOf cs, s =>
    match s with
    | c' :: rest => if c' ∈ cs then [([c'], rest)] else []
    | [] => []
  | RTok.lits l, s => if l.isPrefixOf s then [(l, s.drop l.length)] else []

/-- Match a token sequence against a prefix of `s` (trailing input allowed),
returning the consumed pieces, one per token, under backtracking in greedy
order. -/
def matchToks : List RTok → List Char → Option (List (List Char))
  | [], _ => some []
  | t :: ts, s =>
    (tokAlts t s).findSome? (fun p => (matchToks ts p.2).map (p.1 :: ·))

/-- `re.search`: try every start position left to right. -/
def searchToks (ts : List RTok) : List Char → Option (List (List Char))
  | [] => matchToks ts []
  | c :: rest =>
    match matchToks ts (c :: rest) with
    | some caps => some caps
    | none => searchToks ts rest

/-- The matched text of capture `i` as a string. -/
def capStr (caps : List (List Char)) (i : Nat) : String :=
  String.mk (caps.getD i [])

/-! ## `_parse_date` and its formatters -/

/-- The `months` name-to-number table of `_parse_date`. -/
def month_table : List (String × String) :=
  [ ("jan", "01"), ("january", "01"), ("feb", "02"), ("february", "02"),
    ("mar", "03"), ("march", "03"), ("apr", "04"), ("april", "04"),
    ("may", "05"), ("jun", "06"), ("june", "06"), ("jul", "07"), ("july", "07"),
    ("aug", "08"), ("august", "08"), ("sep", "09"), ("sept", "09"), ("september", "09"),
    ("oct", "10"), ("october", "10"), ("nov", "11"), ("november", "11"),
    ("dec", "12"), ("december", "12") ]

/-- `_format_date_from_match` for the `month_day_year` layout. -/
def format_month_day_year (month_str day year : String) : Option String :=
  match (month_table.find? (fun kv => kv.1 = pyLower month_str)).map Prod.snd with
  | some month => some (year ++ "-" ++ month ++ "-" ++ zfill 2 day)
  | none => none

/-- `_format_date_from_match` for the `day_month_year` layout. -/
def format_day_month_year (day month_str year : String) : Option String :=
  match (month_table.find? (fun kv => kv.1 = pyLower month_str)).map Prod.snd with
  | some month => some (year ++ "-" ++ month ++ "-" ++ zfill 2 day)
  | none => none

/-- `_try_eu_or_us_format`: first number > 12 means EU day-first; second
number > 12 means US; the genuinely ambiguous case also takes the US
branch (first number into the month slot). -/
def try_eu_or_us_format (day month year : String) : String :=
  if 12 < str2nat day then year ++ "-" ++ zfill 2 month ++ "-" ++ zfill 2 day
  else if 12 < str2nat month then year ++ "-" ++ zfill 2 day ++ "-" ++ zfill 2 month
  else year ++ "-" ++ zfill 2 day ++ "-" ++ zfill 2 month

/-- `_format_month_year`: month-and-year-only dates get day `01`. -/
def format_month_year (month_str year : String) : Option String :=
  match (month_table.find? (fun kv => kv.1 = pyLower month_str)).map Prod.snd with
  | some month => some (year ++ "-" ++ month ++ "-01")
  | none => none

/-- The `patterns` table of `_parse_date`, in source order: each entry is
the token form of the regex plus the formatter applied to its captures. -/
def pattern_list : List (List RTok × (List (List Char) → Option String)) :=
  [ ([RTok.wplus, RTok.splus, RTok.drange 1 2, RTok.optc ',', RTok.splus, RTok.drange 4 4],
     fun caps => format_month_day_year (capStr caps 0) (capStr caps 2) (capStr caps 5)),
    ([RTok.drange 1 2, RTok.splus, RTok.wplus, RTok.splus, RTok.drange 4 4],
     fun caps => format_day_month_year (capStr caps 0) (capStr caps 2) (capStr caps 4)),
    ([RTok.drange 4 4, RTok.oneOf ['-', '/'], RTok.drange 1 2, RTok.oneOf ['-', '/'],
      RTok.drange 1 2],
     fun caps =>
       some (capStr caps 0 ++ "-" ++ zfill 2 (capStr caps 2) ++ "-" ++ zfill 2 (capStr caps 4))),
    ([RTok.drange 1 2, RTok.litc '/', RTok.drange 1 2, RTok.litc '/', RTok.drange 4 4],
     fun caps => some (try_eu_or_us_format (capStr caps 0) (capStr caps 2) (capStr caps 4))),
    ([RTok.drange 4 4, RTok.litc '.', RTok.drange 1 2, RTok.litc '.', RTok.drange 1 2],
     fun caps =>
       some (capStr caps 0 ++ "-" ++ zfill 2 (capStr caps 2) ++ "-" ++ zfill 2 (capStr caps 4))),
    ([RTok.wplus, RTok.splus, RTok.drange 4 4],
     fun caps => format_month_year (capStr caps 0) (capStr caps 2)) ]

/-- The pattern loop of `_parse_date`: first structural match whose
formatted result passes `_validate_date` wins; a failed formatter or a
failed validation falls through to the next pattern. -/
def run_patterns :
    List (List RTok × (List (List Char) → Option String)) → String → Option String
  | [], _ => none
  | pf :: rest, s =>
    match searchToks pf.1 s.data with
    | none => run_patterns rest s
    | some caps =>
      match pf.2 caps with
      | none => run_patterns rest s
      | some r => if validate_date r then some r else run_patterns rest s

/-- `_parse_date`.  The fuzzy `dateutil` branch is a third-party capability
outside the repository, abstracted as an optional `du` function applied to
the stripped text; when it succeeds its result is returned as is (the
source validates only the pattern-table results). -/
def parse_date (du : Option (String → Option String)) (date_text : String) :
    Option String :=
  if date_text = "" then none
  else
    match du with
    | some f =>
      match f (pyStrip date_text) with
      | some r => some r
      | none => run_patterns pattern_list (pyStrip date_text)
    | none => run_patterns pattern_list (pyStrip date_text)

/-- Modelled from the spec: strategy 3's permissive natural-date parser
(the `dateutil` shortcut) is third-party code absent from `src/`.  Per the
spec it accepts at least every format of the explicit pattern table
(strategy 4 "must independently handle every format strategy 3 would"),
anchored on a fixed default date, checking only that the candidate is a
real calendar date — a general-purpose parser imposes no year window. -/
def dateutil_model (s : String) : Option String :=
  let go : List (List RTok × (List (List Char) → Option String)) → Option String :=
    fun ps => ps.foldl
      (fun acc pf =>
        match acc with
        | some r => some r
        | none =>
          match searchToks pf.1 s.data with
          | none => none
          | some caps =>
            match pf.2 caps with
            | none => none
            | some r => if (parse_ymd r).isSome then some r else none)
      none
  go pattern_list

/-! ## `_parse_google_date` (relative dates) -/

/-- Token form of `(\d+)\s+day[s]?\s+ago` and its week/month/year
variants. -/
def rel_toks (unit : List Char) : List RTok :=
  [RTok.dplus, RTok.splus, RTok.lits unit, RTok.optc 's', RTok.splus,
   RTok.lits ['a', 'g', 'o']]

/-- One relative branch: on a regex match, subtract the scaled number of
days; an arithmetic failure (the modelled `OverflowError`) falls through. -/
def rel_branch (now : Nat × Nat × Nat) (unit : List Char) (mult : Nat)
    (s : String) : Option String :=
  match searchToks (rel_toks unit) s.data with
  | none => none
  | some caps =>
    match timedelta_sub now (str2nat (capStr caps 0) * mult) with
    | none => none
    | some date => some (strftime_ymd date)

/-- `_parse_google_date`, with `datetime.now()` made explicit as `now`:
relative phrases first ("N days/weeks/months/years ago", "yesterday",
"today"), then `_parse_date`. -/
def parse_google_date (du : Option (String → Option String))
    (now : Nat × Nat × Nat) (date_text : String) : Option String :=
  if date_text = "" then none
  else
    let s := pyLower (pyStrip date_text)
    match rel_branch now ['d', 'a', 'y'] 1 s with
    | some r => some r
    | none =>
    match rel_branch now ['w', 'e', 'e', 'k'] 7 s with
    | some r => some r
    | none =>
    match rel_branch now ['m', 'o', 'n', 't', 'h'] 30 s with
    | some r => some r
    | none =>
    match rel_branch now ['y', 'e', 'a', 'r'] 365 s with
    | some r => some r
    | none =>
    if pyIn "yesterday" s then
      match timedelta_sub now 1 with
      | some date => some (strftime_ymd date)
      | none =>
        if pyIn "today" s then some (strftime_ymd now) else parse_date du s
    else if pyIn "today" s then some (strftime_ymd now)
    else parse_date du s

/-! ## Specification-side quantities -/

/-- Sum, over the registry tokens normalizing to canonical name `c`, of the
word-boundary occurrence counts of each token in the (lowered) text: the
value the spec asserts for `country_mentions[c]`. -/
def mention_sum (text c : String) : Nat :=
  ((sorted_countries.filter (fun t => normalize_country_name t = c)).map
    (fun t => count_occurrences (pyLower t) (pyLower text))).sum

/-! ## Lemmas about the association-list dictionary -/

theorem dictGetD_dictSet_self (d : List (String × Nat)) (k : String) (v : Nat) :
    dictGetD (dictSet d k v) k 0 = v := by
  induction d with
  | nil => simp [dictSet, dictGetD]
  | cons kv rest ih =>
    obtain ⟨k', v'⟩ := kv
    by_cases h : k' = k
    · simp [dictSet, dictGetD, h]
    · simp [dictSet, dictGetD, h, ih]

theorem dictGetD_dictSet_ne (d : List (String × Nat)) (k : String) (v : Nat)
    (c : String) (h : c ≠ k) : dictGetD (dictSet d k v) c 0 = dictGetD d c 0 := by
  have hkc : ¬ k = c := fun hh => h hh.symm
  induction d with
  | nil => simp [dictSet, dictGetD, hkc]
  | cons kv rest ih =>
    obtain ⟨k', v'⟩ := kv
    by_cases hk : k' = k
    · subst hk
      simp [dictSet, dictGetD, hkc]
    · simp [dictSet, dictGetD, hk, ih]

theorem map_fst_dictSet (d : List (String × Nat)) (k : String) (v : Nat) :
    (dictSet d k v).map Prod.fst =
      (if k ∈ d.map Prod.fst then d.map Prod.fst else d.map Prod.fst ++ [k]) := by
  induction d with
  | nil => simp [dictSet]
  | cons kv rest ih =>
    obtain ⟨k', v'⟩ := kv
    by_cases h : k' = k
    · subst h
      simp [dictSet]
    · have hne : ¬ k = k' := fun hh => h hh.symm
      by_cases hm : k ∈ rest.map Prod.fst
      · simp [dictSet, h, ih, hm, hne]
      · simp [dictSet, h, ih, hm, hne]

/-! ## Lemmas about the country-extraction fold -/

theorem countryFold_lookup (tl : String) (L : List String) :
    ∀ (acc : List String × List (String × Nat)) (c : String),
      dictGetD (L.foldl (countryStep tl) acc).2 c 0 =
        dictGetD acc.2 c 0 +
          ((L.filter (fun t => normalize_country_name t = c)).map
            (fun t => count_occurrences (pyLower t) tl)).sum := by
  induction L with
  | nil => intro acc c; simp
  | cons t L ih =>
    intro acc c
    rw [List.foldl_cons, ih]
    by_cases hc : normalize_country_name t = c
    · rw [List.filter_cons_of_pos (by simp [hc]), List.map_cons, List.sum_cons]
      by_cases hn : 0 < count_occurrences (pyLower t) tl
      · simp only [countryStep, if_pos hn, hc]
        rw [dictGetD_dictSet_self]
        omega
      · simp only [countryStep, if_neg hn]
        have h0 : count_occurrences (pyLower t) tl = 0 := Nat.eq_zero_of_not_pos hn
        omega
    · rw [List.filter_cons_of_neg (by simp [hc])]
      by_cases hn : 0 < count_occurrences (pyLower t) tl
      · simp only [countryStep, if_pos hn]
        rw [dictGetD_dictSet_ne _ _ _ _ (fun hh => hc hh.symm)]
      · simp only [countryStep, if_neg hn]

theorem countryStep_mem (tl : String) (t c : String)
    (acc : List String × List (String × Nat)) :
    c ∈ (countryStep tl acc t).1 ↔
      c ∈ acc.1 ∨ (normalize_country_name t = c ∧
        0 < count_occurrences (pyLower t) tl) := by
  rw [countryStep]
  by_cases hn : 0 < count_occurrences (pyLower t) tl
  · rw [if_pos hn]
    by_cases hm : normalize_country_name t ∈ acc.1
    · simp only [if_pos hm]
      constructor
      · exact fun h => Or.inl h
      · rintro (h | ⟨h1, h2⟩)
        · exact h
        · rw [← h1]; exact hm
    · simp only [if_neg hm, List.mem_append, List.mem_singleton]
      constructor
      · rintro (h | h)
        · exact Or.inl h
        · exact Or.inr ⟨h.symm, hn⟩
      · rintro (h | ⟨h1, h2⟩)
        · exact Or.inl h
        · exact Or.inr h1.symm
  · rw [if_neg hn]
    constructor
    · exact fun h => Or.inl h
    · rintro (h | ⟨h1, h2⟩)
      · exact h
      · exact absurd h2 hn

theorem countryFold_mem (tl : String) (L : List String) :
    ∀ (acc : List String × List (String × Nat)) (c : String),
      c ∈ (L.foldl (countryStep tl) acc).1 ↔
        c ∈ acc.1 ∨ ∃ t ∈ L, normalize_country_name t = c ∧
          0 < count_occurrences (pyLower t) tl := by
  induction L with
  | nil => intro acc c; simp
  | cons t L ih =>
    intro acc c
    rw [List.foldl_cons, ih, countryStep_mem]
    constructor
    · rintro ((h | h) | ⟨u, hu, hp⟩)
      · exact Or.inl h
      · exact Or.inr ⟨t, List.mem_cons_self t L, h⟩
      · exact Or.inr ⟨u, List.mem_cons_of_mem t hu, hp⟩
    · rintro (h | ⟨u, hu, hp⟩)
      · exact Or.inl (Or.inl h)
      · rcases List.mem_cons.mp hu with h1 | h1
        · exact Or.inl (Or.inr (h1 ▸ hp))
        · exact Or.inr ⟨u, h1, hp⟩

theorem countryFold_nodup (tl : String) (L : List String) :
    ∀ acc : List String × List (String × Nat),
      acc.1.Nodup → (L.foldl (countryStep tl) acc).1.Nodup := by
  induction L with
  | nil => intro acc h; exact h
  | cons t L ih =>
    intro acc h
    rw [List.foldl_cons]
    refine ih _ ?_
    rw [countryStep]
    by_cases hn : 0 < count_occurrences (pyLower t) tl
    · rw [if_pos hn]
      by_cases hm : normalize_country_name t ∈ acc.1
      · simpa only [if_pos hm] using h
      · simp only [if_neg hm]
        exact List.Nodup.append h (List.nodup_singleton _)
          (by simpa [List.disjoint_singleton] using hm)
    · rw [if_neg hn]; exact h

theorem countryFold_keys (tl : String) (L : List String) :
    ∀ acc : List String × List (String × Nat),
      acc.2.map Prod.fst = acc.1 →
      (L.foldl (countryStep tl) acc).2.map Prod.fst =
        (L.foldl (countryStep tl) acc).1 := by
  induction L with
  | nil => intro acc h; exact h
  | cons t L ih =>
    intro acc h
    rw [List.foldl_cons]
    refine ih _ ?_
    rw [countryStep]
    by_cases hn : 0 < count_occurrences (pyLower t) tl
    · rw [if_pos hn]
      simp only [map_fst_dictSet, h]
    · rw [if_neg hn]; exact h

theorem countryFold_id_of_no_match (tl : String) (L : List String) :
    ∀ acc : List String × List (String × Nat),
      (∀ t ∈ L, count_occurrences (pyLower t) tl = 0) →
      L.foldl (countryStep tl) acc = acc := by
  induction L with
  | nil => intro acc _; rfl
  | cons t L ih =>
    intro acc h
    rw [List.foldl_cons, countryStep,
      if_neg (by rw [h t (List.mem_cons_self t L)]; omega)]
    exact ih acc (fun u hu => h u (List.mem_cons_of_mem t hu))

theorem sum_filter_pos_iff (tl : String) (L : List String) (c : String) :
    0 < ((L.filter (fun t => normalize_country_name t = c)).map
          (fun t => count_occurrences (pyLower t) tl)).sum ↔
      ∃ t ∈ L, normalize_country_name t = c ∧
        0 < count_occurrences (pyLower t) tl := by
  induction L with
  | nil => simp
  | cons t L ih =>
    by_cases hc : normalize_country_name t = c
    · rw [List.filter_cons_of_pos (by simp [hc]), List.map_cons, List.sum_cons]
      constructor
      · intro h
        by_cases hn : 0 < count_occurrences (pyLower t) tl
        · exact ⟨t, List.mem_cons_self t L, hc, hn⟩
        · have : 0 < ((L.filter (fun t => normalize_country_name t = c)).map
              (fun t => count_occurrences (pyLower t) tl)).sum := by omega
          obtain ⟨u, hu, h1, h2⟩ := ih.mp this
          exact ⟨u, List.mem_cons_of_mem t hu, h1, h2⟩
      · rintro ⟨u, hu, h1, h2⟩
        rcases List.mem_cons.mp hu with h3 | h3
        · subst h3; omega
        · have := ih.mpr ⟨u, h3, h1, h2⟩
          omega
    · rw [List.filter_cons_of_neg (by simp [hc]), ih]
      constructor
      · rintro ⟨u, hu, h1, h2⟩
        exact ⟨u, List.mem_cons_of_mem t hu, h1, h2⟩
      · rintro ⟨u, hu, h1, h2⟩
        rcases List.mem_cons.mp hu with h3 | h3
        · exact absurd (h3 ▸ h1) hc
        · exact ⟨u, h3, h1, h2⟩

/-! ## Lemmas about the date pattern loop -/

theorem run_patterns_validated
    (ps : List (List RTok × (List (List Char) → Option String))) :
    ∀ (s : String) (r : String), run_patterns ps s = some r →
      validate_date r = true := by
  induction ps with
  | nil => intro s r h; simp [run_patterns] at h
  | cons pf rest ih =>
    intro s r h
    rw [run_patterns] at h
    cases hs : searchToks pf.1 s.data with
    | none => rw [hs] at h; exact ih s r h
    | some caps =>
      rw [hs] at h
      dsimp only at h
      cases hf : pf.2 caps with
      | none => rw [hf] at h; exact ih s r h
      | some r' =>
        rw [hf] at h
        dsimp only at h
        cases hv : validate_date r' with
        | true =>
          rw [if_pos hv] at h
          cases h; exact hv
        | false =>
          rw [if_neg (by rw [hv]; exact Bool.false_ne_true)] at h
          exact ih s r h

/-! ## Claim theorems -/

/-- Claim C1.  The claim says exact table lookup takes precedence over the
substring fallback, so the token `'ukraine'` normalizes to `'Ukraine'`.
The code walks the mapping in key order testing exact-or-substring per key,
so the key `'uk'` (a substring of `'ukraine'`) wins before the exact key
`'ukraine'` is reached: the table's own `'ukraine' ↦ 'Ukraine'` entry is
dead and the function returns `'United Kingdom'`. -/
theorem c1_normalize_ukraine_diverges :
    ("ukraine", "Ukraine") ∈ country_mapping ∧
      normalize_country_name "ukraine" = "United Kingdom" :=
  ⟨by decide, by decide⟩

/-- Claim C2, counterexample.  Relative-phrase resolution returns its
result without the year validation gate: resolved against a reference
date of 2024-06-10, "30 years ago" yields the accepted date 1994-06-18,
whose year lies outside `[2000, 2030]`, instead of being rejected and
falling through to an unset result. -/
theorem c2_relative_phrase_unvalidated :
    parse_google_date none (2024, 6, 10) "30 years ago" = some "1994-06-18" ∧
      validate_date "1994-06-18" = false :=
  ⟨by decide, by decide⟩

/-- Claim C2, amended.  The validation gate does hold for the explicit
pattern table (and so for every candidate routed through `_parse_date`
without the fuzzy parser): any accepted result passed `_validate_date`,
i.e. parses as a real calendar date with year in `[2000, 2030]`. -/
theorem c2_pattern_table_gate (s r : String)
    (h : parse_date none s = some r) : validate_date r = true := by
  rw [parse_date] at h
  by_cases hs : s = ""
  · rw [if_pos hs] at h
    cases h
  · rw [if_neg hs] at h
    exact run_patterns_validated pattern_list (pyStrip s) r h

/-- Witness for `c2_pattern_table_gate` at the concrete input
"Jan 15, 2020". -/
theorem c2_pattern_table_gate_witness : validate_date "2020-01-15" = true :=
  c2_pattern_table_gate "Jan 15, 2020" "2020-01-15" (by decide)

/-- Claim C3, counterexample.  The claim says the genuinely ambiguous
numeric form defaults to day-first (EU), so "05/02/2019" would normalize
to "2019-02-05"; the code's ambiguous branch instead places the first
number in the month slot (its comment: "prefer US format"), producing
"2019-05-02". -/
theorem c3_ambiguous_not_eu :
    parse_date none "05/02/2019" = some "2019-05-02" ∧
      parse_date none "05/02/2019" ≠ some "2019-02-05" :=
  ⟨by decide, by decide⟩

/-- Claim C3, amended.  Whenever the first number of `a/b/YYYY` is at most
12 (which covers the genuinely ambiguous case in which both are), the
result places the first number in the month slot — the US order — so
"05/02/2019" normalizes to "2019-05-02". -/
theorem c3_ambiguous_defaults_us (a b y : String) (h : str2nat a ≤ 12) :
    try_eu_or_us_format a b y = y ++ "-" ++ zfill 2 a ++ "-" ++ zfill 2 b := by
  rw [try_eu_or_us_format, if_neg (by omega)]
  exact ite_self _

/-- Witness for `c3_ambiguous_defaults_us` at the concrete groups of
"05/02/2019". -/
theorem c3_ambiguous_defaults_us_witness :
    try_eu_or_us_format "05" "02" "2019" =
      "2019" ++ "-" ++ zfill 2 "05" ++ "-" ++ zfill 2 "02" :=
  c3_ambiguous_defaults_us "05" "02" "2019" (by decide)

/-- Claim C4, counterexample.  The fuzzy branch returns its parse without
the validation gate, so its availability changes final behavior: on
"Jan 15, 1999" the chain with the permissive parser yields "1999-01-15",
while without it the pattern table rejects the year and the result is
unset. -/
theorem c4_fuzzy_presence_changes_result :
    parse_date (some dateutil_model) "Jan 15, 1999" = some "1999-01-15" ∧
      parse_date none "Jan 15, 1999" = none :=
  ⟨by decide, by decide⟩

/-- Claim C4, amended.  When the fuzzy parser is unavailable or fails on
the (stripped) input, the result is exactly the pattern-table result, so
only the fuzzy branch's unvalidated successes can change final behavior. -/
theorem c4_absent_fuzzy_equals_pattern_table (du : String → Option String)
    (s : String) (h : du (pyStrip s) = none) :
    parse_date (some du) s = parse_date none s := by
  by_cases hs : s = ""
  · simp [parse_date, hs]
  · simp [parse_date, hs, h]

/-- Witness for `c4_absent_fuzzy_equals_pattern_table` with an
always-failing fuzzy parser on a concrete input. -/
theorem c4_absent_fuzzy_equals_pattern_table_witness :
    parse_date (some (fun _ => none)) "2020-01-15" = parse_date none "2020-01-15" :=
  c4_absent_fuzzy_equals_pattern_table (fun _ => none) "2020-01-15" rfl

/-- Claim C5, counterexample.  On a `None` text the classification code
raises: the first keyword containment test `keyword in None` is a
`TypeError` under Python semantics, rather than yielding an empty
result. -/
theorem c5_none_text_raises :
    extract_industries_py none = Except.error "TypeError" := rfl

/-- Claim C5, amended.  On an empty (but non-`None`) text every
classification function is total and yields the empty result: no industry,
no country, no mention counts, and the neutral attribution verdict. -/
theorem c5_empty_text_empty_results :
    extract_industries "" = [] ∧
      extract_countries_with_counts "" = ([], []) ∧
      determine_attack_method "" = "unknown" ∧
      extract_industries_py (some "") = Except.ok [] :=
  ⟨by decide, by decide, by decide, rfl⟩

/-- Claim C6.  For every text and canonical name `c`: the mentions
dictionary holds at `c` exactly the sum over registry tokens normalizing
to `c` of their non-overlapping word-boundary occurrence counts; `c` is in
the returned country list iff that sum is positive (so every listed
country has count at least 1); the returned list has no duplicates and is
exactly the key list of the mentions dictionary, so its cardinality is the
number of canonical names with nonzero counts. -/
theorem c6_country_mentions_spec (text c : String) :
    dictGetD (extract_countries_with_counts text).2 c 0 = mention_sum text c ∧
      (c ∈ (extract_countries_with_counts text).1 ↔ 0 < mention_sum text c) ∧
      (extract_countries_with_counts text).1.Nodup ∧
      (extract_countries_with_counts text).2.map Prod.fst =
        (extract_countries_with_counts text).1 := by
  refine ⟨?_, ?_, ?_, ?_⟩
  · have h := countryFold_lookup (pyLower text) sorted_countries ([], []) c
    simpa [extract_countries_with_counts, mention_sum, dictGetD] using h
  · rw [extract_countries_with_counts, mention_sum, countryFold_mem]
    simp only [List.not_mem_nil, false_or]
    exact (sum_filter_pos_iff (pyLower text) sorted_countries c).symm
  · exact countryFold_nodup (pyLower text) sorted_countries ([], []) List.nodup_nil
  · exact countryFold_keys (pyLower text) sorted_countries ([], []) rfl

/-- Claim C7.  If the text contains the substring "russian" but no
registry token has a word-boundary occurrence in it (in particular a token
appearing only inside a larger word), country extraction returns the empty
country list and the empty mentions dictionary. -/
theorem c7_substring_never_matches (text : String)
    (h1 : pyIn "russian" (pyLower text) = true)
    (h2 : ∀ t ∈ sorted_countries,
      count_occurrences (pyLower t) (pyLower text) = 0) :
    extract_countries_with_counts text = ([], []) := by
  rw [extract_countries_with_counts]
  exact countryFold_id_of_no_match (pyLower text) sorted_countries ([], []) h2

/-- Witness for `c7_substring_never_matches` on a text containing
"russian" (and no standalone registry token). -/
theorem c7_substring_never_matches_witness :
    extract_countries_with_counts "russian operatives sabotaged a pipeline" =
      ([], []) :=
  c7_substring_never_matches "russian operatives sabotaged a pipeline"
    (by decide) (by decide)

/-- Claim C8.  The attribution verdict is exactly the margin rule:
"direct" iff the direct score strictly exceeds the proxy score, "proxy"
iff strictly the other way, and "unknown" exactly on ties (including
0-0). -/
theorem c8_margin_rule (text : String) :
    (determine_attack_method text = "direct" ↔
        proxy_score text < direct_score text) ∧
      (determine_attack_method text = "proxy" ↔
        direct_score text < proxy_score text) ∧
      (determine_attack_method text = "unknown" ↔
        direct_score text = proxy_score text) := by
  rw [determine_attack_method]
  rcases Nat.lt_trichotomy (direct_score text) (proxy_score text) with h | h | h
  · rw [if_neg (by omega), if_pos h]
    exact ⟨iff_of_false (by decide) (by omega), iff_of_true rfl h,
      iff_of_false (by decide) (by omega)⟩
  · rw [if_neg (by omega), if_neg (by omega)]
    exact ⟨iff_of_false (by decide) (by omega),
      iff_of_false (by decide) (by omega), iff_of_true rfl h⟩
  · rw [if_pos h]
    exact ⟨iff_of_true rfl h, iff_of_false (by decide) (by omega),
      iff_of_false (by decide) (by omega)⟩

/-- Claim C9, counterexample.  The claim says the title-case fallback is
unreachable for tokens of the recognized set; but `'austria'` (likewise
`'switzerland'` and `'united kingdom'`) matches no mapping key exactly or
by substring, so normalization reaches the fallback for it. -/
theorem c9_fallback_reachable :
    "austria" ∈ COUNTRY_KEYWORDS ∧ resolves_via_table "austria" = false ∧
      normalize_country_name "austria" = "Austria" ∧
      resolves_via_table "switzerland" = false ∧
      resolves_via_table "united kingdom" = false :=
  ⟨by decide, by decide, by decide, by decide, by decide⟩

/-- Claim C9, amended.  Every recognized token other than `'austria'`,
`'switzerland'` and `'united kingdom'` resolves through the normalization
table (exact or substring key); the three exceptions take the title-case
fallback, which still returns a definite canonical name, so normalization
stays total and deterministic on the recognized set. -/
theorem c9_table_covers_all_but_three (t : String) (h : t ∈ COUNTRY_KEYWORDS)
    (h1 : t ≠ "austria") (h2 : t ≠ "switzerland")
    (h3 : t ≠ "united kingdom") : resolves_via_table t = true := by
  have hall : ∀ u ∈ COUNTRY_KEYWORDS, u ≠ "austria" → u ≠ "switzerland" →
      u ≠ "united kingdom" → resolves_via_table u = true := by decide
  exact hall t h h1 h2 h3

/-- Witness for `c9_table_covers_all_but_three` at the token "poland". -/
theorem c9_table_covers_all_but_three_witness :
    resolves_via_table "poland" = true :=
  c9_table_covers_all_but_three "poland" (by decide) (by decide) (by decide)
    (by decide)

/-- Claim C10.  The single word "criminals" contains both the proxy
lexicon terms "criminal" and "criminals" as substrings and no state-actor
term, so the proxy score is 2 against a direct score of 0 and the verdict
is "proxy": one word can contribute more than 1 to a lexicon's score. -/
theorem c10_criminals_double_count :
    direct_score "criminals" = 0 ∧ proxy_score "criminals" = 2 ∧
      determine_attack_method "criminals" = "proxy" :=
  ⟨by decide, by decide, by decide⟩

end Arbitr
